import Mathlib

/-!
Shallow embedding of the marketing research validation pipeline
(`scripts/validate_and_save.py` and `scripts/utils.py`) together with
proofs of the behavioural properties stated for it.

Python dictionaries are modelled as association lists with first-match
lookup, Python scalar values as the inductive `PyValue`, and the error
strings appended by the validator as the inductive `VError` together with
a `render` function producing the exact source strings.  Filesystem and
HTTP effects are modelled by explicit state passing / oracles.
-/

namespace Marketing

/-- Python scalar values as they occur in records and schema rules.
`null` is Python `None`. -/
inductive PyValue where
  | null
  | str (s : String)
  | int (n : Int)
  | bool (b : Bool)
  deriving DecidableEq, Repr

/-- A record is a Python dict with string keys (association list,
first match wins on lookup, insertion at the front shadows). -/
abbrev Record := List (String × PyValue)

/-- Model of Python `dict.get(key)`: first matching binding, else absent. -/
def recGet : Record → String → Option PyValue
  | [], _ => Option.none
  | (k, v) :: rest, key => if k = key then some v else recGet rest key

/-- ASCII lowercasing of one character (the inputs the scripts compare
are ASCII, where Python `str.lower` agrees with this). -/
def charLower (c : Char) : Char :=
  if 'A' ≤ c ∧ c ≤ 'Z' then Char.ofNat (c.toNat + 32) else c

/-- Model of Python `str.lower()`. -/
def pyLower (s : String) : String := String.mk (s.data.map charLower)

/-- ASCII uppercasing of one character. -/
def charUpper (c : Char) : Char :=
  if 'a' ≤ c ∧ c ≤ 'z' then Char.ofNat (c.toNat - 32) else c

/-- Model of Python `str.upper()`. -/
def pyUpper (s : String) : String := String.mk (s.data.map charUpper)

/-- Model of Python `str.strip()`: drop whitespace from both ends. -/
def pyStrip (s : String) : String :=
  String.mk (((s.data.dropWhile Char.isWhitespace).reverse.dropWhile Char.isWhitespace).reverse)

/-- Model of Python `str.startswith(pre)`. -/
def pyStartsWith (s pre : String) : Bool := pre.data.isPrefixOf s.data

/-- Model of Python `str(value)` on the scalar values we embed. -/
def pyStr : PyValue → String
  | PyValue.null => "None"
  | PyValue.str s => s
  | PyValue.int n => toString n
  | PyValue.bool b => if b then "True" else "False"

/-- Python truthiness on the embedded scalar values. -/
def pyTruthy : PyValue → Bool
  | PyValue.null => false
  | PyValue.str s => !(s == "")
  | PyValue.int n => n != 0
  | PyValue.bool b => b

/-- Python `type(value).__name__` for the embedded scalars. -/
def pyTypeName : PyValue → String
  | PyValue.null => "NoneType"
  | PyValue.str _ => "str"
  | PyValue.int _ => "int"
  | PyValue.bool _ => "bool"

/-- Approximation of Python `repr` for scalar values (used only inside the
rendering of enum violation messages). -/
def pyRepr : PyValue → String
  | PyValue.null => "None"
  | PyValue.str s => "\x27" ++ s ++ "\x27"
  | PyValue.int n => toString n
  | PyValue.bool b => if b then "True" else "False"

/-- Python `repr` of a list of scalars, as an f-string renders it. -/
def pyReprList (l : List PyValue) : String :=
  "[" ++ String.intercalate ", " (l.map pyRepr) ++ "]"

/-- Model of Python `x or default` for list-valued config entries: `None`
and the empty list are falsy and select the default. -/
def pyOrList (a : Option (List α)) (d : List α) : List α :=
  match a with
  | Option.none => d
  | some l => if l.isEmpty then d else l

/-- `utils.DEFAULT_ALLOWED_STATUS` (utils.py line 102). -/
def DEFAULT_ALLOWED_STATUS : List Int := [200, 201, 301, 302]

/-- Per-field rules of a ruleset, i.e. the keys the validator reads from
one entry of `schema["fields"]`.  Each component is `Option` because the
source accesses them with `dict.get` and a default. -/
structure FieldRules where
  presence : Option String := Option.none
  rtype : Option String := Option.none
  min_length : Option PyValue := Option.none
  max_length : Option PyValue := Option.none
  values : Option (List PyValue) := Option.none
  deriving DecidableEq, Repr

/-- The parts of a loaded schema configuration that
`validate_and_save.Validator` reads (required list, field rules,
`url_checks`, `retry`, and `duplicates` sections). -/
structure Schema where
  required : List String := []
  fields : List (String × FieldRules) := []
  url_allowed_status : Option (List Int) := Option.none
  url_method : Option String := Option.none
  retry_status_forcelist : Option (List Int) := Option.none
  url_retry_status : Option (List Int) := Option.none
  duplicates_keys : Option (List String) := Option.none
  deriving DecidableEq, Repr

/-- `Validator.__init__` line 90: allowed status codes for URL checks,
`allowed or DEFAULT_ALLOWED_STATUS` (membership set modelled as a list). -/
def schemaAllowedStatus (s : Schema) : List Int :=
  pyOrList s.url_allowed_status DEFAULT_ALLOWED_STATUS

/-- `Validator.__init__` line 91: `str(url_cfg.get("method", "HEAD")).upper()`. -/
def schemaMethod (s : Schema) : String :=
  pyUpper (s.url_method.getD "HEAD")

/-- `Validator.validate` line 147: duplicate keys with their default. -/
def duplicateKeys (s : Schema) : List String :=
  s.duplicates_keys.getD ["vendor_name", "website_url"]

/-- The validation errors `Validator.validate` can append, as an inductive
type; `VError.render` recovers the exact strings from the source. -/
inductive VError where
  | missingRequired (f : String)
  | typeMismatch (f : String) (tyName : String)
  | tooShort (f : String) (m : Int)
  | tooLong (f : String) (m : Int)
  | enumViolation (f : String) (v : PyValue) (allowed : List PyValue)
  | badUrlFormat (f : String)
  | urlNotExist
  | duplicate
  deriving DecidableEq, Repr

/-- The exact error strings appended by `Validator.validate`
(validate_and_save.py lines 112, 125, 130, 132, 136, 139, 145, 150). -/
def VError.render : VError → String
  | VError.missingRequired f => "Missing required field: " ++ f
  | VError.typeMismatch f t => f ++ ": expected string, got " ++ t
  | VError.tooShort f m => f ++ ": too short (min " ++ toString m ++ ")"
  | VError.tooLong f m => f ++ ": too long (max " ++ toString m ++ ")"
  | VError.enumViolation f v allowed =>
      f ++ ": \x27" ++ pyStr v ++ "\x27 not in allowed values " ++ pyReprList allowed
  | VError.badUrlFormat f => f ++ ": must be a valid HTTP(S) URL"
  | VError.urlNotExist => "website_url: URL does not exist or is not accessible"
  | VError.duplicate => "Duplicate entry - already exists"

/-- Outcome of one HTTP request as the validator observes it: a response
with a status code, or a raised `requests.RequestException`. -/
inductive HttpOutcome where
  | resp (status : Int)
  | exc
  deriving DecidableEq, Repr

/-- Abstraction of the retry-wrapped `session.request`: a deterministic
oracle from (method, url) to the observed outcome. -/
abbrev HttpOracle := String → String → HttpOutcome

/-- `Validator._verify_url` (lines 154-172): request with the configured
method; on a status outside the allowed set fall back to one GET request
when the configured method is not GET; any raised request exception
(initial or fallback, both inside the same `try`) yields `false`. -/
def verifyUrl (method : String) (allowed : List Int) (http : HttpOracle) (url : String) : Bool :=
  match http method url with
  | HttpOutcome.exc => false
  | HttpOutcome.resp status =>
      if allowed.contains status then true
      else if method ≠ "GET" then
        match http "GET" url with
        | HttpOutcome.exc => false
        | HttpOutcome.resp s2 => allowed.contains s2
      else false

/-- `Validator.validate` lines 110-112: a required field is reported
missing when `str(data.get(field, "")).strip()` is falsy (empty). -/
def requiredFieldMissing (data : Record) (f : String) : Bool :=
  (match recGet data f with
   | some v => pyStr v
   | Option.none => "") |> pyStrip |> (· == "")

/-- The errors appended by the required-fields loop, in order. -/
def requiredErrors (required : List String) (data : Record) : List VError :=
  required.filterMap fun f =>
    if requiredFieldMissing data f then some (VError.missingRequired f) else Option.none

/-- Lines 127-130: the min-length check of a string-typed rule, active
only when `min_length` is declared as an int (`isinstance(min_length, int)`). -/
def minLenErrs (name : String) (rules : FieldRules) (s : String) : List VError :=
  match rules.min_length with
  | some (PyValue.int m) => if (s.length : Int) < m then [VError.tooShort name m] else []
  | _ => []

/-- Lines 128, 131-132: the max-length check of a string-typed rule. -/
def maxLenErrs (name : String) (rules : FieldRules) (s : String) : List VError :=
  match rules.max_length with
  | some (PyValue.int m) => if (s.length : Int) > m then [VError.tooLong name m] else []
  | _ => []

/-- Lines 123-132: the "string" rule type — a non-string value is a type
mismatch and skips the length checks (`continue`). -/
def stringRuleErrs (name : String) (rules : FieldRules) (v : PyValue) : List VError :=
  match v with
  | PyValue.str s => minLenErrs name rules s ++ maxLenErrs name rules s
  | other => [VError.typeMismatch name (pyTypeName other)]

/-- Lines 133-136: the "enum" rule type. -/
def enumRuleErrs (name : String) (rules : FieldRules) (v : PyValue) : List VError :=
  if (rules.values.getD []).contains v then []
  else [VError.enumViolation name v (rules.values.getD [])]

/-- Lines 137-139: the "url" rule type. -/
def urlRuleErrs (name : String) (v : PyValue) : List VError :=
  match v with
  | PyValue.str s => if pyStartsWith s "http" then [] else [VError.badUrlFormat name]
  | _ => [VError.badUrlFormat name]

/-- Lines 122-139: dispatch on `rules.get("type", "string")` for a field
whose value is present (not `None`); an undeclared rule type checks
nothing. -/
def presentFieldErrs (name : String) (rules : FieldRules) (v : PyValue) : List VError :=
  if rules.rtype.getD "string" == "string" then stringRuleErrs name rules v
  else if rules.rtype.getD "string" == "enum" then enumRuleErrs name rules v
  else if rules.rtype.getD "string" == "url" then urlRuleErrs name v
  else []

/-- Lines 117-120: a `None` value (absent key or explicit null) skips all
checks and warns only when the declared presence is "recommended". -/
def absentFieldWarns (name : String) (rules : FieldRules) : List String :=
  if rules.presence.getD "optional" == "recommended"
  then ["Recommended field missing: " ++ name] else []

/-- One iteration of the field-rules loop (`Validator.validate` lines
114-139): returns the errors and warnings it appends, in order. -/
def fieldCheck (data : Record) (name : String) (rules : FieldRules) :
    List VError × List String :=
  match recGet data name with
  | Option.none => ([], absentFieldWarns name rules)
  | some PyValue.null => ([], absentFieldWarns name rules)
  | some value => (presentFieldErrs name rules value, [])

/-- The whole field-rules loop over `schema["fields"]` in insertion
order, concatenating per-field errors and warnings. -/
def fieldChecks : List (String × FieldRules) → Record → List VError × List String
  | [], _ => ([], [])
  | (n, r) :: rest, data =>
      let head := fieldCheck data n r
      let tail := fieldChecks rest data
      (head.1 ++ tail.1, head.2 ++ tail.2)

/-- `Validator.validate` lines 141-145: the live URL check runs only when
`website_url` is a string starting with "http"; a failed check appends
exactly the one `urlNotExist` error. -/
def urlCheckErrors (schema : Schema) (http : HttpOracle) (data : Record) : List VError :=
  match recGet data "website_url" with
  | some (PyValue.str url) =>
      if pyStartsWith url "http" then
        if verifyUrl (schemaMethod schema) (schemaAllowedStatus schema) http url then []
        else [VError.urlNotExist]
      else []
  | _ => []

/-- One key comparison of `Validator._is_duplicate` (lines 181-186): skip
when either side is absent or falsy, otherwise compare the lowercased
string renderings of both values. -/
def keyMatches (existing data : Record) (key : String) : Bool :=
  match recGet existing key, recGet data key with
  | some ev, some dv =>
      if !pyTruthy ev || !pyTruthy dv then false
      else pyLower (pyStr ev) == pyLower (pyStr dv)
  | _, _ => false

/-- `Validator._is_duplicate` (lines 174-187): scan every previously
persisted record; any single key matching (per `keyMatches`) flags a
duplicate.  A missing models directory is the empty record list. -/
def isDuplicate (existingRecords : List Record) (data : Record) (keys : List String) : Bool :=
  existingRecords.any fun ex => keys.any fun k => keyMatches ex data k

/-- `ValidationOutcome` restricted to the fields the claims are about
(the source also carries `saved_file` and `manifest_path`, which are
filled in by `main` and modelled there). -/
structure Outcome where
  data : Record
  errors : List VError
  warnings : List String
  duplicateDetected : Bool
  deriving DecidableEq, Repr

/-- `Validator.validate` (lines 105-152): required-field loop, field-rules
loop, live URL check, duplicate check, with errors appended in exactly
that order. -/
def validate (schema : Schema) (http : HttpOracle) (existingRecords : List Record)
    (data : Record) : Outcome :=
  let reqErrs := requiredErrors schema.required data
  let fld := fieldChecks schema.fields data
  let urlErrs := urlCheckErrors schema http data
  let isDup := isDuplicate existingRecords data (duplicateKeys schema)
  { data := data
    errors := reqErrs ++ fld.1 ++ urlErrs ++ (if isDup then [VError.duplicate] else [])
    warnings := fld.2
    duplicateDetected := isDup }

/-- `Validator.save` line 191-192: slug derivation from the vendor name
(lowercase, spaces to underscores, dots removed, then keep only
alphanumerics and underscores). -/
def slugOf (vendorName : String) : String :=
  let lowered := (pyLower vendorName).data
  let underscored := lowered.map fun c => if c = ' ' then '_' else c
  let dotless := underscored.filter fun c => c ≠ '.'
  String.mk (dotless.filter fun c => c.isAlphanum || c = '_')

/-- The filenames `Validator.save` can pick inside the models directory
for one fixed slug: `base` stands for `{slug}.json` and `versioned k`
for `{slug}_v{k}.json`; for a fixed slug these renderings are pairwise
distinct strings, which the constructors reflect. -/
inductive ModelFileName where
  | base
  | versioned (k : Nat)
  deriving DecidableEq, Repr

/-- String rendering of a model filename for a given slug. -/
def ModelFileName.render (slug : String) : ModelFileName → String
  | ModelFileName.base => slug ++ ".json"
  | ModelFileName.versioned k => slug ++ "_v" ++ toString k ++ ".json"

/-- The models directory restricted to one slug: the files present and
their JSON contents.  Writing with mode "w" is modelled by prepending
(first-match lookup makes the new entry shadow any older one). -/
abbrev ModelsDir := List (ModelFileName × Record)

/-- Path existence check (`Path.exists`) inside the per-slug directory. -/
def fileExistsB (dir : ModelsDir) (n : ModelFileName) : Bool :=
  dir.any fun p => p.1 = n

/-- Contents of a file in the per-slug directory, newest write first. -/
def dirGet : ModelsDir → ModelFileName → Option Record
  | [], _ => Option.none
  | (k, v) :: rest, n => if k = n then some v else dirGet rest n

/-- An upper bound on the version numbers present in the directory. -/
def maxVersion (dir : ModelsDir) : Nat :=
  (dir.map fun p =>
    match p.1 with
    | ModelFileName.versioned k => k
    | ModelFileName.base => 0).foldr max 0

/-- The `while` loop of `Validator.save` lines 202-204: starting from
counter `c`, return the first counter whose versioned filename is free.
`fuel` bounds the recursion; `chooseName` supplies enough fuel for the
search to always terminate at a free name. -/
def searchFree (ex : Nat → Bool) : Nat → Nat → Nat
  | c, 0 => c
  | c, fuel + 1 => if ex c then searchFree ex (c + 1) fuel else c

/-- `Validator.save` lines 200-205: take `{slug}.json` when free,
otherwise the first free `{slug}_v{counter}.json` counting from 1. -/
def chooseName (dir : ModelsDir) : ModelFileName :=
  if fileExistsB dir ModelFileName.base then
    ModelFileName.versioned
      (searchFree (fun k => fileExistsB dir (ModelFileName.versioned k)) 1 (maxVersion dir + 1))
  else ModelFileName.base

/-- Insert or overwrite a key in a record (dict assignment). -/
def recSet (data : Record) (key : String) (v : PyValue) : Record :=
  (key, v) :: data

/-- `Validator.save` lines 195-198: stamp `model_id`, `date_saved` and
`validated` onto the record before writing.  The MD5-derived id and the
wall-clock timestamp are abstracted as string parameters. -/
def stampRecord (data : Record) (modelId dateSaved : String) : Record :=
  recSet (recSet (recSet data "model_id" (PyValue.str modelId))
    "date_saved" (PyValue.str dateSaved)) "validated" (PyValue.bool true)

/-- `Validator.save` (lines 189-210) for a fixed slug: choose a free
filename and write the stamped record there, returning the chosen name
and the updated directory. -/
def save (dir : ModelsDir) (data : Record) (modelId dateSaved : String) :
    ModelFileName × ModelsDir :=
  let name := chooseName dir
  (name, (name, stampRecord data modelId dateSaved) :: dir)

/-- The filesystem state `utils.load_schema_config` interacts with:
whether the schemas directory exists, the parsed contents of any
`{name}.yaml` and `{name}.schema.json` files in it, and whether the
optional PyYAML dependency is importable. -/
structure SchemaFs where
  schemasDirExists : Bool
  yaml : String → Option Schema
  json : String → Option Schema
  yamlAvailable : Bool

/-- `ModulePaths.schemas` (utils.py lines 96-99): resolves the schemas
directory and calls `mkdir(parents=True, exist_ok=True)` on it. -/
def schemasMkdir (fs : SchemaFs) : SchemaFs :=
  { fs with schemasDirExists := true }

/-- The read-only part of `utils.load_schema_config` (lines 108-121):
prefer `{name}.yaml` (requiring PyYAML), fall back to
`{name}.schema.json`, and raise when neither exists. -/
def loadSchemaRead (fs : SchemaFs) (name : String) : Except String Schema :=
  match fs.yaml name with
  | some s =>
      if fs.yamlAvailable then Except.ok s
      else Except.error "PyYAML is required to load marketing schemas; install pyyaml in the module venv"
  | Option.none =>
      match fs.json name with
      | some s => Except.ok s
      | Option.none => Except.error ("No schema found for \x27" ++ name ++ "\x27")

/-- `utils.load_schema_config` (lines 105-121) including its filesystem
effect: line 107 calls `paths.schemas()`, which creates the schemas
directory (and its parents) when absent, before any file is read. -/
def load_schema_config (fs : SchemaFs) (name : String) : SchemaFs × Except String Schema :=
  let fs1 := schemasMkdir fs
  (fs1, loadSchemaRead fs1 name)

/-- `Validator.__init__` line 95: `retry_cfg.get("status_forcelist") or
url_cfg.get("retry_status")` with Python falsy chaining. -/
def validatorStatusForcelist (retryForcelist urlRetryStatus : Option (List Int)) :
    Option (List Int) :=
  match retryForcelist with
  | some l => if l.isEmpty then urlRetryStatus else some l
  | Option.none => urlRetryStatus

/-- `utils.build_retry_session` line 224:
`list(status_forcelist or DEFAULT_ALLOWED_STATUS)`. -/
def effectiveStatusForcelist (sf : Option (List Int)) : List Int :=
  pyOrList sf DEFAULT_ALLOWED_STATUS

/-- The retry configuration `utils.build_retry_session` (lines 211-239)
hands to `urllib3.util.retry.Retry`; the float-valued backoff factor and
the adapter plumbing carry no logic and are omitted. -/
structure RetryConfig where
  total : Int
  statusForcelist : List Int
  allowedMethods : List String
  deriving DecidableEq, Repr

/-- `utils.build_retry_session`: the `Retry` object it constructs. -/
def build_retry_session (maxRetries : Int) (statusForcelist : Option (List Int))
    (allowedMethods : List String) : RetryConfig :=
  { total := maxRetries
    statusForcelist := effectiveStatusForcelist statusForcelist
    allowedMethods := allowedMethods.map pyUpper }

/-- A structured log event as `StructuredLogger._build_event`
(utils.py lines 146-158) assembles it; the wall-clock timestamp is a
string parameter. -/
structure Event where
  timestamp : String
  script : String
  state : String
  level : String
  message : String
  subdir : Option String
  details : Option (List (String × PyValue))
  deriving DecidableEq, Repr

/-- `StructuredLogger._build_event`: note the lowercased level. -/
def buildEvent (ts scriptName : String) (subdir : Option String)
    (state message level : String) (details : Option (List (String × PyValue))) : Event :=
  { timestamp := ts, script := scriptName, state := state, level := pyLower level
    message := message, subdir := subdir, details := details }

/-- The files `StructuredLogger.log` appends to. -/
inductive LogFile where
  | session
  | latest
  deriving DecidableEq, Repr

/-- One observable effect of a `StructuredLogger.log` call, in program
order: the in-memory `_events.append`, a console `print`, or an
`append_json_line` to one of the two log files. -/
inductive LogEffect where
  | memAppend (ev : Event)
  | consolePrint (line : String)
  | appendLine (file : LogFile) (ev : Event)
  deriving DecidableEq, Repr

/-- The console line `StructuredLogger.log` prints (lines 164-170):
badge from the state or the uppercased level, with the state name shown
only the first time that state is printed. -/
def consoleLine (printedStates : List String) (state message level : String) : String :=
  let badge := if state = "OK" ∨ state = "ERROR" ∨ state = "WARN" then state else pyUpper level
  if state ∈ printedStates then "[" ++ badge ++ "] " ++ message
  else "[" ++ badge ++ "] " ++ state ++ ": " ++ message

/-- `StructuredLogger.log` (lines 160-173) as the ordered list of its
effects plus the updated printed-states set: append to the in-memory
event list, print to the console, then append the event to the
per-session JSONL file and to the latest file. -/
def logCall (printedStates : List String) (ts scriptName : String) (subdir : Option String)
    (state message level : String) (details : Option (List (String × PyValue))) :
    List LogEffect × List String :=
  let ev := buildEvent ts scriptName subdir state message level details
  ([LogEffect.memAppend ev,
    LogEffect.consolePrint (consoleLine printedStates state message level),
    LogEffect.appendLine LogFile.session ev,
    LogEffect.appendLine LogFile.latest ev],
   if state ∈ printedStates then printedStates else printedStates ++ [state])

/-- The naming state of a `StructuredLogger`: script name and the
session id minted from the start-of-run wall clock
(`datetime.now().strftime`). -/
structure LoggerState where
  scriptName : String
  subdir : Option String
  sessionId : String
  deriving DecidableEq, Repr

/-- `StructuredLogger.__post_init__` line 142: the per-session log file
name `{script_name}_{session_id}.log.jsonl` (relative to the log dir). -/
def sessionLogPath (lg : LoggerState) : String :=
  lg.scriptName ++ "_" ++ lg.sessionId ++ ".log.jsonl"

/-- `StructuredLogger.__post_init__` line 143: the rolling latest log
file name, `latest.log.json`. -/
def latestLogPath (_lg : LoggerState) : String :=
  "latest.log.json"

/-- `StructuredLogger.flush_summary` line 177: the manifest path
`{script_name}_result.json` (relative to the log dir). -/
def manifestPath (lg : LoggerState) : String :=
  lg.scriptName ++ "_result.json"

/-- A directory of files with opaque contents; mode-"w" writes prepend
and first-match lookup reads, so a rewrite shadows the old contents. -/
abbrev FileStore (α : Type) := List (String × α)

/-- Write a file with mode "w" (create or truncate-and-replace). -/
def writeFile (fs : FileStore α) (path : String) (contents : α) : FileStore α :=
  (path, contents) :: fs

/-- Read a file: the contents of the most recent write to that path. -/
def readFile : FileStore α → String → Option α
  | [], _ => Option.none
  | (p, c) :: rest, path => if p = path then some c else readFile rest path

/-- `StructuredLogger.flush_summary` (lines 175-187): write the summary
payload (abstracted) to `{script_name}_result.json` with mode "w" and
return that path. -/
def flushSummary (fs : FileStore α) (lg : LoggerState) (payload : α) :
    String × FileStore α :=
  (manifestPath lg, writeFile fs (manifestPath lg) payload)

/-- The outcome of one `validate_and_save.main` run as far as the claims
observe it: exit code, whether `write_manifest` ran before exit, any
uncaught exception message, the summary status written, and the saved
file (if any). -/
structure RunResult where
  exitCode : Nat
  manifestWritten : Bool
  uncaughtError : Option String
  summaryStatus : Option String
  savedFile : Option ModelFileName
  deriving DecidableEq, Repr

/-- `validate_and_save.main` (lines 267-356).  Stdin parsing is
abstracted as an `Except` (`parse_input` raises `ValueError` on bad
input, caught at lines 289-299 with a manifest write); the schema load
inside `Validator.__init__` is NOT inside any `try`, so its failure
escapes as an uncaught exception.  Errors without `--force` and warnings
without `--force` each write a manifest and exit 1; otherwise a save is
performed unless `--dry-run`, and a success manifest is written. -/
def mainRun (parseResult : Except String Record) (store : SchemaFs) (dataType : String)
    (force dryRun : Bool) (http : HttpOracle) (existingRecords : List Record)
    (dir : ModelsDir) (modelId dateSaved : String) : RunResult :=
  match parseResult with
  | Except.error _ =>
      { exitCode := 1, manifestWritten := true, uncaughtError := Option.none
        summaryStatus := some "failed", savedFile := Option.none }
  | Except.ok data =>
      match (load_schema_config store dataType).2 with
      | Except.error e =>
          { exitCode := 1, manifestWritten := false, uncaughtError := some e
            summaryStatus := Option.none, savedFile := Option.none }
      | Except.ok schema =>
          let outcome := validate schema http existingRecords data
          if !outcome.errors.isEmpty && !force then
            { exitCode := 1, manifestWritten := true, uncaughtError := Option.none
              summaryStatus := some "failed", savedFile := Option.none }
          else if !outcome.warnings.isEmpty && !force then
            { exitCode := 1, manifestWritten := true, uncaughtError := Option.none
              summaryStatus := some "needs_attention", savedFile := Option.none }
          else if dryRun then
            { exitCode := 0, manifestWritten := true, uncaughtError := Option.none
              summaryStatus := some "success", savedFile := Option.none }
          else
            { exitCode := 0, manifestWritten := true, uncaughtError := Option.none
              summaryStatus := some "success"
              savedFile := some (save dir data modelId dateSaved).1 }

/-- A concrete run of `main`: well-formed stdin, but no schema file of
any kind for the requested type, so `load_schema_config` inside
`Validator.__init__` raises `FileNotFoundError` outside every
`try` block. -/
def configErrorRun : RunResult :=
  mainRun (Except.ok [("vendor_name", PyValue.str "Acme")])
    ⟨false, fun _ => Option.none, fun _ => Option.none, true⟩ "company" false false
    (fun _ _ => HttpOutcome.resp 200) [] [] "id" "ts"

/-! Helper lemmas about the save-path search. -/

theorem searchFree_spec (ex : Nat → Bool) :
    ∀ (fuel c : Nat), (∃ j, j ≤ fuel ∧ ex (c + j) = false) →
      ex (searchFree ex c fuel) = false := by
  intro fuel
  induction fuel with
  | zero =>
      intro c h
      obtain ⟨j, hj, hex⟩ := h
      have hj0 : j = 0 := Nat.le_zero.mp hj
      subst hj0
      simpa [searchFree] using hex
  | succ n ih =>
      intro c h
      obtain ⟨j, hj, hex⟩ := h
      by_cases hc : ex c = true
      · rw [searchFree, if_pos hc]
        apply ih
        cases j with
        | zero =>
            rw [Nat.add_zero] at hex
            rw [hex] at hc
            cases hc
        | succ j =>
            refine ⟨j, Nat.le_of_succ_le_succ hj, ?_⟩
            have : c + 1 + j = c + (j + 1) := by omega
            rw [this]
            exact hex
      · have hc' : ex c = false := Bool.not_eq_true _ |>.mp hc
        rw [searchFree, if_neg (by simp [hc'])]
        exact hc'

theorem mem_le_foldr_max : ∀ (l : List Nat) (x : Nat), x ∈ l → x ≤ l.foldr max 0 := by
  intro l
  induction l with
  | nil => intro x hx; cases hx
  | cons a t ih =>
      intro x hx
      rcases List.mem_cons.mp hx with h | h
      · subst h
        exact Nat.le_max_left _ _
      · exact le_trans (ih x h) (Nat.le_max_right _ _)

theorem fileExists_versioned_le (dir : ModelsDir) (k : Nat)
    (h : fileExistsB dir (ModelFileName.versioned k) = true) : k ≤ maxVersion dir := by
  simp only [fileExistsB, List.any_eq_true, decide_eq_true_eq] at h
  obtain ⟨p, hp, hkey⟩ := h
  have hmem : k ∈ dir.map (fun p =>
      match p.1 with
      | ModelFileName.versioned k => k
      | ModelFileName.base => 0) := by
    refine List.mem_map.mpr ⟨p, hp, ?_⟩
    rw [hkey]
  exact mem_le_foldr_max _ _ hmem

theorem chooseName_not_exists (dir : ModelsDir) :
    fileExistsB dir (chooseName dir) = false := by
  unfold chooseName
  by_cases hb : fileExistsB dir ModelFileName.base = true
  · rw [if_pos hb]
    have hfree : fileExistsB dir (ModelFileName.versioned (1 + maxVersion dir)) = false := by
      by_contra h
      have h' : fileExistsB dir (ModelFileName.versioned (1 + maxVersion dir)) = true := by
        cases hx : fileExistsB dir (ModelFileName.versioned (1 + maxVersion dir)) with
        | true => rfl
        | false => exact absurd hx h
      have := fileExists_versioned_le dir _ h'
      omega
    exact searchFree_spec (fun k => fileExistsB dir (ModelFileName.versioned k))
      (maxVersion dir + 1) 1 ⟨maxVersion dir, Nat.le_succ _, hfree⟩
  · have hb' : fileExistsB dir ModelFileName.base = false := Bool.not_eq_true _ |>.mp hb
    rw [if_neg (by simp [hb'])]
    exact hb'

theorem fileExists_head (n : ModelFileName) (r : Record) (dir : ModelsDir) :
    fileExistsB ((n, r) :: dir) n = true := by
  simp [fileExistsB]

/-- C3: `Validator.save` never overwrites.  For any state of the per-slug
models directory, the filename chosen by a save is not an already
existing file; saving the same logical record a second time picks a
distinct (versioned) filename; and after the second save the first file
still holds the first saved contents while the second file holds the
second.  (`save` appends `_v1`, `_v2`, ... until a free name is found.) -/
theorem save_never_overwrites (dir : ModelsDir) (d1 d2 : Record) (id1 t1 id2 t2 : String) :
    fileExistsB dir (save dir d1 id1 t1).1 = false ∧
    fileExistsB (save dir d1 id1 t1).2 (save (save dir d1 id1 t1).2 d2 id2 t2).1 = false ∧
    (save dir d1 id1 t1).1 ≠ (save (save dir d1 id1 t1).2 d2 id2 t2).1 ∧
    dirGet (save (save dir d1 id1 t1).2 d2 id2 t2).2 (save dir d1 id1 t1).1
      = some (stampRecord d1 id1 t1) ∧
    dirGet (save (save dir d1 id1 t1).2 d2 id2 t2).2 (save (save dir d1 id1 t1).2 d2 id2 t2).1
      = some (stampRecord d2 id2 t2) := by
  have h1 : fileExistsB dir (save dir d1 id1 t1).1 = false := chooseName_not_exists dir
  have h2 : fileExistsB (save dir d1 id1 t1).2 (save (save dir d1 id1 t1).2 d2 id2 t2).1 = false :=
    chooseName_not_exists (save dir d1 id1 t1).2
  have hne : (save dir d1 id1 t1).1 ≠ (save (save dir d1 id1 t1).2 d2 id2 t2).1 := by
    intro heq
    have hmem : fileExistsB (save dir d1 id1 t1).2 (save dir d1 id1 t1).1 = true :=
      fileExists_head _ _ _
    rw [heq] at hmem
    rw [h2] at hmem
    cases hmem
  refine ⟨h1, h2, hne, ?_, ?_⟩
  · show dirGet ((chooseName (save dir d1 id1 t1).2, stampRecord d2 id2 t2) ::
        (chooseName dir, stampRecord d1 id1 t1) :: dir) (chooseName dir) = _
    rw [dirGet, if_neg (fun h => hne h.symm), dirGet, if_pos rfl]
  · show dirGet ((chooseName (save dir d1 id1 t1).2, stampRecord d2 id2 t2) ::
        (save dir d1 id1 t1).2) (chooseName (save dir d1 id1 t1).2) = _
    rw [dirGet, if_pos rfl]

/-- Witness for `save_never_overwrites`: two saves of the same record
into an initially empty directory produce `slug.json` then
`slug_v1.json`, with both files readable afterwards. -/
theorem save_never_overwrites_witness :
    (save ([] : ModelsDir) [("vendor_name", PyValue.str "Acme")] "id1" "t1").1
        = ModelFileName.base ∧
    (save (save ([] : ModelsDir) [("vendor_name", PyValue.str "Acme")] "id1" "t1").2
        [("vendor_name", PyValue.str "Acme")] "id2" "t2").1 = ModelFileName.versioned 1 ∧
    (save ([] : ModelsDir) [("vendor_name", PyValue.str "Acme")] "id1" "t1").1 ≠
      (save (save ([] : ModelsDir) [("vendor_name", PyValue.str "Acme")] "id1" "t1").2
        [("vendor_name", PyValue.str "Acme")] "id2" "t2").1 := by
  refine ⟨by decide, by decide, ?_⟩
  exact (save_never_overwrites [] [("vendor_name", PyValue.str "Acme")]
    [("vendor_name", PyValue.str "Acme")] "id1" "t1" "id2" "t2").2.2.1

/-! Helper lemmas classifying the errors each validation phase can emit. -/

theorem requiredErrors_shape (req : List String) (data : Record) :
    ∀ e ∈ requiredErrors req data, ∃ f, e = VError.missingRequired f := by
  intro e he
  simp only [requiredErrors, List.mem_filterMap] at he
  obtain ⟨f, _, hf⟩ := he
  by_cases h : requiredFieldMissing data f = true
  · rw [if_pos h] at hf
    exact ⟨f, (Option.some.inj hf).symm⟩
  · rw [if_neg h] at hf
    cases hf

theorem minLenErrs_shape (name : String) (rules : FieldRules) (s : String) :
    ∀ e ∈ minLenErrs name rules s, ∃ m, e = VError.tooShort name m := by
  intro e he
  unfold minLenErrs at he
  split at he
  · split at he
    · simp at he
      exact ⟨_, he⟩
    · cases he
  · cases he

theorem maxLenErrs_shape (name : String) (rules : FieldRules) (s : String) :
    ∀ e ∈ maxLenErrs name rules s, ∃ m, e = VError.tooLong name m := by
  intro e he
  unfold maxLenErrs at he
  split at he
  · split at he
    · simp at he
      exact ⟨_, he⟩
    · cases he
  · cases he

theorem presentFieldErrs_shape (name : String) (rules : FieldRules) (v : PyValue) :
    ∀ e ∈ presentFieldErrs name rules v,
      (∃ t, e = VError.typeMismatch name t) ∨ (∃ m, e = VError.tooShort name m) ∨
      (∃ m, e = VError.tooLong name m) ∨ (∃ w vs, e = VError.enumViolation name w vs) ∨
      e = VError.badUrlFormat name := by
  intro e he
  unfold presentFieldErrs at he
  split at he
  · unfold stringRuleErrs at he
    split at he
    · rcases List.mem_append.mp he with h | h
      · exact Or.inr (Or.inl (minLenErrs_shape _ _ _ _ h))
      · exact Or.inr (Or.inr (Or.inl (maxLenErrs_shape _ _ _ _ h)))
    · simp at he
      exact Or.inl ⟨_, he⟩
  · split at he
    · unfold enumRuleErrs at he
      split at he
      · cases he
      · simp at he
        exact Or.inr (Or.inr (Or.inr (Or.inl ⟨_, _, he⟩)))
    · split at he
      · unfold urlRuleErrs at he
        split at he
        · split at he
          · cases he
          · simp at he
            exact Or.inr (Or.inr (Or.inr (Or.inr he)))
        · simp at he
          exact Or.inr (Or.inr (Or.inr (Or.inr he)))
      · cases he

theorem fieldCheck_shape (data : Record) (name : String) (rules : FieldRules) :
    ∀ e ∈ (fieldCheck data name rules).1,
      (∃ t, e = VError.typeMismatch name t) ∨ (∃ m, e = VError.tooShort name m) ∨
      (∃ m, e = VError.tooLong name m) ∨ (∃ w vs, e = VError.enumViolation name w vs) ∨
      e = VError.badUrlFormat name := by
  intro e he
  unfold fieldCheck at he
  split at he
  · cases he
  · cases he
  · exact presentFieldErrs_shape _ _ _ _ he

theorem fieldChecks_shape (fields : List (String × FieldRules)) (data : Record) :
    ∀ e ∈ (fieldChecks fields data).1, ∃ n,
      (∃ t, e = VError.typeMismatch n t) ∨ (∃ m, e = VError.tooShort n m) ∨
      (∃ m, e = VError.tooLong n m) ∨ (∃ w vs, e = VError.enumViolation n w vs) ∨
      e = VError.badUrlFormat n := by
  induction fields with
  | nil => intro e he; cases he
  | cons p rest ih =>
      intro e he
      obtain ⟨n, r⟩ := p
      simp only [fieldChecks] at he
      rcases List.mem_append.mp he with h | h
      · exact ⟨n, fieldCheck_shape data n r e h⟩
      · exact ih e h

theorem urlCheckErrors_shape (schema : Schema) (http : HttpOracle) (data : Record) :
    ∀ e ∈ urlCheckErrors schema http data, e = VError.urlNotExist := by
  intro e he
  unfold urlCheckErrors at he
  split at he
  · split at he
    · split at he
      · cases he
      · simp at he
        exact he
    · cases he
  · cases he

theorem count_missingRequired_fieldChecks (fields : List (String × FieldRules))
    (data : Record) (f : String) :
    (fieldChecks fields data).1.count (VError.missingRequired f) = 0 := by
  rw [List.count_eq_zero]
  intro h
  obtain ⟨n, hc⟩ := fieldChecks_shape fields data _ h
  rcases hc with ⟨t, ht⟩ | ⟨m, hm⟩ | ⟨m, hm⟩ | ⟨w, vs, hw⟩ | hb <;> simp_all

theorem count_urlNotExist_fieldChecks (fields : List (String × FieldRules)) (data : Record) :
    (fieldChecks fields data).1.count VError.urlNotExist = 0 := by
  rw [List.count_eq_zero]
  intro h
  obtain ⟨n, hc⟩ := fieldChecks_shape fields data _ h
  rcases hc with ⟨t, ht⟩ | ⟨m, hm⟩ | ⟨m, hm⟩ | ⟨w, vs, hw⟩ | hb <;> simp_all

theorem count_missingRequired_requiredErrors (req : List String) (data : Record) (f : String) :
    (requiredErrors req data).count (VError.missingRequired f) =
      if requiredFieldMissing data f = true then req.count f else 0 := by
  induction req with
  | nil => simp [requiredErrors]
  | cons g t ih =>
      simp only [requiredErrors] at *
      by_cases hg : requiredFieldMissing data g = true
      · rw [List.filterMap_cons, if_pos hg]
        rw [List.count_cons, ih, List.count_cons]
        by_cases hgf : g = f
        · subst hgf
          simp [hg]
        · have h1 : (VError.missingRequired g == VError.missingRequired f) = false := by
            simp [hgf]
          have h2 : (g == f) = false := by simp [hgf]
          rw [h1, h2]
          split <;> simp
      · rw [List.filterMap_cons, if_neg hg, ih, List.count_cons]
        by_cases hgf : g = f
        · subst hgf
          rw [if_neg hg, if_neg hg]
        · have h2 : (g == f) = false := by simp [hgf]
          rw [h2]
          split <;> simp

theorem count_missingRequired_urlCheckErrors (schema : Schema) (http : HttpOracle)
    (data : Record) (f : String) :
    (urlCheckErrors schema http data).count (VError.missingRequired f) = 0 := by
  rw [List.count_eq_zero]
  intro h
  have := urlCheckErrors_shape schema http data _ h
  simp_all

theorem count_missingRequired_dupSeg (b : Bool) (f : String) :
    ((if b then [VError.duplicate] else []) : List VError).count (VError.missingRequired f) = 0 := by
  cases b <;> simp

theorem count_urlNotExist_requiredErrors (req : List String) (data : Record) :
    (requiredErrors req data).count VError.urlNotExist = 0 := by
  rw [List.count_eq_zero]
  intro h
  obtain ⟨f, hf⟩ := requiredErrors_shape req data _ h
  simp_all

theorem count_urlNotExist_dupSeg (b : Bool) :
    ((if b then [VError.duplicate] else []) : List VError).count VError.urlNotExist = 0 := by
  cases b <;> simp

theorem validate_errors_split (schema : Schema) (http : HttpOracle) (recs : List Record)
    (data : Record) :
    (validate schema http recs data).errors =
      requiredErrors schema.required data ++ (fieldChecks schema.fields data).1 ++
      urlCheckErrors schema http data ++
      (if isDuplicate recs data (duplicateKeys schema) then [VError.duplicate] else []) := rfl

/-- C4: for a record from which a ruleset-required field is absent,
`Validator.validate` reports exactly one `Missing required field` error
for it, and `main` without `--force` then exits without persisting any
record file. -/
theorem validate_missing_required_once (schema : Schema) (http : HttpOracle)
    (recs : List Record) (data : Record) (f : String)
    (hnodup : schema.required.Nodup) (hmem : f ∈ schema.required)
    (habs : recGet data f = Option.none) :
    (validate schema http recs data).errors.count (VError.missingRequired f) = 1 ∧
    ∀ (store : SchemaFs) (dataType : String) (dryRun : Bool) (dir : ModelsDir)
      (modelId dateSaved : String),
      (load_schema_config store dataType).2 = Except.ok schema →
      (mainRun (Except.ok data) store dataType false dryRun http recs dir
          modelId dateSaved).savedFile = Option.none ∧
      (mainRun (Except.ok data) store dataType false dryRun http recs dir
          modelId dateSaved).exitCode = 1 := by
  have hmiss : requiredFieldMissing data f = true := by
    unfold requiredFieldMissing
    rw [habs]
    decide
  have hcount : (validate schema http recs data).errors.count (VError.missingRequired f) = 1 := by
    rw [validate_errors_split, List.count_append, List.count_append, List.count_append,
        count_missingRequired_requiredErrors, if_pos hmiss,
        List.count_eq_one_of_mem hnodup hmem,
        count_missingRequired_fieldChecks, count_missingRequired_urlCheckErrors,
        count_missingRequired_dupSeg]
  refine ⟨hcount, ?_⟩
  intro store dataType dryRun dir modelId dateSaved hload
  have hne : (validate schema http recs data).errors.isEmpty = false := by
    cases herr : (validate schema http recs data).errors with
    | nil => rw [herr] at hcount; simp at hcount
    | cons a l => rfl
  constructor <;> simp [mainRun, hload, hne]

/-- Witness for `validate_missing_required_once` at a concrete schema
and an empty input record. -/
theorem validate_missing_required_once_witness :
    (validate { required := ["vendor_name"] } (fun _ _ => HttpOutcome.resp 200) []
        []).errors.count (VError.missingRequired "vendor_name") = 1 ∧
    (mainRun (Except.ok [])
        ⟨false, fun n => if n = "company" then some { required := ["vendor_name"] }
          else Option.none, fun _ => Option.none, true⟩
        "company" false false (fun _ _ => HttpOutcome.resp 200) [] [] "id" "ts").savedFile
      = Option.none := by
  have h := validate_missing_required_once { required := ["vendor_name"] }
    (fun _ _ => HttpOutcome.resp 200) [] [] "vendor_name"
    (by decide) (by decide) rfl
  exact ⟨h.1,
    (h.2 ⟨false, fun n => if n = "company" then some { required := ["vendor_name"] }
        else Option.none, fun _ => Option.none, true⟩
      "company" false [] "id" "ts" rfl).1⟩

/-- C10: a ruleset-required field bound to an explicit null is NOT
reported as missing — the required check tests the string rendering of
the value and `str(None)` is the non-blank string `None` — while the
field-rules loop treats the same null exactly like an absent field
(no checks, only the recommended-presence warning). -/
theorem validate_null_required_not_reported (schema : Schema) (http : HttpOracle)
    (recs : List Record) (data : Record) (f : String)
    (_hmem : f ∈ schema.required)
    (hnull : recGet data f = some PyValue.null) :
    (validate schema http recs data).errors.count (VError.missingRequired f) = 0 ∧
    pyStr PyValue.null = "None" ∧
    ∀ r : FieldRules, fieldCheck data f r = ([], absentFieldWarns f r) := by
  have hmiss : requiredFieldMissing data f = false := by
    unfold requiredFieldMissing
    rw [hnull]
    decide
  refine ⟨?_, rfl, ?_⟩
  · rw [validate_errors_split, List.count_append, List.count_append, List.count_append,
        count_missingRequired_requiredErrors, if_neg (by simp [hmiss]),
        count_missingRequired_fieldChecks, count_missingRequired_urlCheckErrors,
        count_missingRequired_dupSeg]
  · intro r
    unfold fieldCheck
    rw [hnull]

/-- Witness for `validate_null_required_not_reported` with a concrete
null-valued required field. -/
theorem validate_null_required_not_reported_witness :
    (validate { required := ["vendor_name"] } (fun _ _ => HttpOutcome.resp 200) []
        [("vendor_name", PyValue.null)]).errors.count
      (VError.missingRequired "vendor_name") = 0 ∧
    fieldCheck [("vendor_name", PyValue.null)] "vendor_name"
        { presence := some "recommended" }
      = ([], ["Recommended field missing: vendor_name"]) := by
  have h := validate_null_required_not_reported { required := ["vendor_name"] }
    (fun _ _ => HttpOutcome.resp 200) [] [("vendor_name", PyValue.null)] "vendor_name"
    (by decide) rfl
  exact ⟨h.1, by rw [h.2.2 { presence := some "recommended" }]; rfl⟩

/-- C5: behaviour of the live URL existence check.  The check passes
exactly when the initial request (or, when the configured method is not
GET, the one GET fallback) returns a status in the allowed set; a
request-level exception never passes.  `validate` appends no URL error
when the check passes and exactly one error — whose text contains
"URL does not exist" — when it fails. -/
theorem url_check_spec (schema : Schema) (http : HttpOracle) (recs : List Record)
    (data : Record) (url : String)
    (hfield : recGet data "website_url" = some (PyValue.str url))
    (hhttp : pyStartsWith url "http" = true) :
    (verifyUrl (schemaMethod schema) (schemaAllowedStatus schema) http url = true ↔
      ((∃ s, http (schemaMethod schema) url = HttpOutcome.resp s ∧
          (schemaAllowedStatus schema).contains s = true) ∨
       (schemaMethod schema ≠ "GET" ∧
        ∃ s t, http (schemaMethod schema) url = HttpOutcome.resp s ∧
          (schemaAllowedStatus schema).contains s = false ∧
          http "GET" url = HttpOutcome.resp t ∧
          (schemaAllowedStatus schema).contains t = true))) ∧
    (validate schema http recs data).errors.count VError.urlNotExist =
      (if verifyUrl (schemaMethod schema) (schemaAllowedStatus schema) http url
       then 0 else 1) ∧
    (∃ a b, VError.urlNotExist.render = a ++ "URL does not exist" ++ b) := by
  refine ⟨?_, ?_, ⟨"website_url: ", " or is not accessible", rfl⟩⟩
  · cases h0 : http (schemaMethod schema) url with
    | exc =>
        have hv : verifyUrl (schemaMethod schema) (schemaAllowedStatus schema) http url
            = false := by
          unfold verifyUrl
          rw [h0]
        rw [hv]
        constructor
        · intro h; cases h
        · rintro (⟨s, hs, _⟩ | ⟨_, s, t, hs, _⟩) <;> cases hs
    | resp s =>
        have hv : verifyUrl (schemaMethod schema) (schemaAllowedStatus schema) http url
            = (if (schemaAllowedStatus schema).contains s = true then true
               else if schemaMethod schema ≠ "GET" then
                 match http "GET" url with
                 | HttpOutcome.exc => false
                 | HttpOutcome.resp s2 => (schemaAllowedStatus schema).contains s2
               else false) := by
          unfold verifyUrl
          rw [h0]
        rw [hv]
        by_cases hc : (schemaAllowedStatus schema).contains s = true
        · rw [if_pos hc]
          constructor
          · intro _; exact Or.inl ⟨s, rfl, hc⟩
          · intro _; rfl
        · have hc' : (schemaAllowedStatus schema).contains s = false :=
            Bool.not_eq_true _ |>.mp hc
          rw [if_neg hc]
          by_cases hm : schemaMethod schema ≠ "GET"
          · rw [if_pos hm]
            cases h1 : http "GET" url with
            | exc =>
                constructor
                · intro h; cases h
                · rintro (⟨u, hu, hcu⟩ | ⟨_, u, v, hu, _, hv2, _⟩)
                  · cases hu
                    exact absurd hcu hc
                  · cases hv2
            | resp t =>
                constructor
                · intro h
                  exact Or.inr ⟨hm, s, t, rfl, hc', rfl, h⟩
                · rintro (⟨u, hu, hcu⟩ | ⟨_, u, v, hu, hcu, hv2, hcv⟩)
                  · cases hu
                    exact absurd hcu hc
                  · cases hv2
                    exact hcv
          · rw [if_neg hm]
            constructor
            · intro h; cases h
            · rintro (⟨u, hu, hcu⟩ | ⟨hm', _⟩)
              · cases hu
                exact absurd hcu hc
              · exact absurd hm' hm
  · have hurl : urlCheckErrors schema http data =
        (if verifyUrl (schemaMethod schema) (schemaAllowedStatus schema) http url
         then [] else [VError.urlNotExist]) := by
      unfold urlCheckErrors
      simp only [hfield]
      rw [if_pos hhttp]
    rw [validate_errors_split, List.count_append, List.count_append, List.count_append,
        count_urlNotExist_requiredErrors, count_urlNotExist_fieldChecks,
        count_urlNotExist_dupSeg, hurl]
    cases hv : verifyUrl (schemaMethod schema) (schemaAllowedStatus schema) http url <;> simp

/-- Witness for `url_check_spec`: a HEAD request answered 500 with a GET
fallback answered 200 passes the check and yields no URL error. -/
theorem url_check_spec_witness :
    (validate ({} : Schema)
        (fun m _ => if m = "HEAD" then HttpOutcome.resp 500 else HttpOutcome.resp 200)
        [] [("website_url", PyValue.str "https://example.com")]).errors.count
      VError.urlNotExist =
      (if verifyUrl (schemaMethod {}) (schemaAllowedStatus {})
          (fun m _ => if m = "HEAD" then HttpOutcome.resp 500 else HttpOutcome.resp 200)
          "https://example.com"
       then 0 else 1) ∧
    (∃ a b, VError.urlNotExist.render = a ++ "URL does not exist" ++ b) := by
  have h := url_check_spec {}
    (fun m _ => if m = "HEAD" then HttpOutcome.resp 500 else HttpOutcome.resp 200)
    [] [("website_url", PyValue.str "https://example.com")] "https://example.com"
    rfl (by decide)
  exact ⟨h.2.1, h.2.2⟩

/-- C1 counterexample: a configuration error — no schema file for the
requested type — escapes `main` as an uncaught exception, so the process
exits non-zero WITHOUT writing any manifest. -/
theorem config_error_skips_manifest :
    configErrorRun.manifestWritten = false ∧ configErrorRun.exitCode = 1 ∧
    configErrorRun.uncaughtError = some "No schema found for \x27company\x27" :=
  ⟨rfl, rfl, rfl⟩

/-- C1 (amended): every terminal outcome EXCEPT an uncaught configuration
error writes the manifest before exit: a stdin parse failure, and every
run in which the schema load succeeds (validation failure, warnings,
dry-run, and success), all call `write_manifest`. -/
theorem mainRun_writes_manifest (parseResult : Except String Record) (store : SchemaFs)
    (dataType : String) (force dryRun : Bool) (http : HttpOracle) (recs : List Record)
    (dir : ModelsDir) (modelId dateSaved : String)
    (h : (∃ e, parseResult = Except.error e) ∨
         ∃ s, (load_schema_config store dataType).2 = Except.ok s) :
    (mainRun parseResult store dataType force dryRun http recs dir
        modelId dateSaved).manifestWritten = true := by
  cases parseResult with
  | error e => rfl
  | ok data =>
      rcases h with ⟨e, he⟩ | ⟨s, hs⟩
      · cases he
      · simp only [mainRun, hs]
        split
        · rfl
        · split
          · rfl
          · split <;> rfl

/-- Witness for `mainRun_writes_manifest`: a parse failure still writes
the manifest. -/
theorem mainRun_writes_manifest_witness :
    (mainRun (Except.error "No data provided via stdin")
        ⟨false, fun _ => Option.none, fun _ => Option.none, true⟩ "company" false false
        (fun _ _ => HttpOutcome.resp 200) [] [] "id" "ts").manifestWritten = true :=
  mainRun_writes_manifest _ _ _ _ _ _ _ _ _ _ (Or.inl ⟨_, rfl⟩)

/-- C2 counterexample: two records whose URLs differ only in letter case,
with entirely different vendor names, are flagged as duplicates — the URL
is case-folded before comparison, not matched exactly. -/
theorem is_duplicate_url_case_folded :
    isDuplicate
        [[("vendor_name", PyValue.str "Alpha"),
          ("website_url", PyValue.str "https://EXAMPLE.com")]]
        [("vendor_name", PyValue.str "Beta"),
         ("website_url", PyValue.str "https://example.com")]
        ["vendor_name", "website_url"] = true ∧
    ("https://EXAMPLE.com" : String) ≠ "https://example.com" := by
  exact ⟨by decide, by decide⟩

/-- One key comparison of `_is_duplicate` succeeds exactly when both
sides are present and truthy and their lowercased string renderings
coincide. -/
theorem keyMatches_eq_true (ex data : Record) (k : String) :
    keyMatches ex data k = true ↔
      ∃ ev dv, recGet ex k = some ev ∧ recGet data k = some dv ∧
        pyTruthy ev = true ∧ pyTruthy dv = true ∧
        pyLower (pyStr ev) = pyLower (pyStr dv) := by
  cases hev : recGet ex k with
  | none =>
      have hk : keyMatches ex data k = false := by
        unfold keyMatches
        rw [hev]
      rw [hk]
      simp
  | some a =>
      cases hdv : recGet data k with
      | none =>
          have hk : keyMatches ex data k = false := by
            unfold keyMatches
            rw [hev, hdv]
          rw [hk]
          simp
      | some b =>
          have hk : keyMatches ex data k =
              (if !pyTruthy a || !pyTruthy b then false
               else pyLower (pyStr a) == pyLower (pyStr b)) := by
            unfold keyMatches
            rw [hev, hdv]
          rw [hk]
          cases hta : pyTruthy a with
          | false => simp [hta]
          | true =>
              cases htb : pyTruthy b with
              | false => simp [htb]
              | true => simp [hta, htb]

/-- C2 (amended): `_is_duplicate` compares EVERY configured duplicate key
case-insensitively — the URL exactly like the name — and flags a
duplicate as soon as any single key matches on the lowercased string
renderings of two truthy values. -/
theorem is_duplicate_iff (recs : List Record) (data : Record) (keys : List String) :
    isDuplicate recs data keys = true ↔
      ∃ ex ∈ recs, ∃ k ∈ keys, ∃ ev dv,
        recGet ex k = some ev ∧ recGet data k = some dv ∧
        pyTruthy ev = true ∧ pyTruthy dv = true ∧
        pyLower (pyStr ev) = pyLower (pyStr dv) := by
  unfold isDuplicate
  rw [List.any_eq_true]
  constructor
  · rintro ⟨ex, hex, hk⟩
    rw [List.any_eq_true] at hk
    obtain ⟨k, hkm, hmatch⟩ := hk
    obtain ⟨ev, dv, h1, h2, h3, h4, h5⟩ := (keyMatches_eq_true ex data k).mp hmatch
    exact ⟨ex, hex, k, hkm, ev, dv, h1, h2, h3, h4, h5⟩
  · rintro ⟨ex, hex, k, hkm, ev, dv, h1, h2, h3, h4, h5⟩
    refine ⟨ex, hex, ?_⟩
    rw [List.any_eq_true]
    exact ⟨k, hkm, (keyMatches_eq_true ex data k).mpr ⟨ev, dv, h1, h2, h3, h4, h5⟩⟩

/-- Witness for `is_duplicate_iff`: the case-insensitive vendor-name
match from the spec example — "Atomwise" versus "atomwise" with the same
URL — is flagged as a duplicate. -/
theorem is_duplicate_iff_witness :
    isDuplicate
        [[("vendor_name", PyValue.str "Atomwise"),
          ("website_url", PyValue.str "https://atomwise.com")]]
        [("vendor_name", PyValue.str "atomwise"),
         ("website_url", PyValue.str "https://atomwise.com")]
        ["vendor_name", "website_url"] = true := by
  apply (is_duplicate_iff _ _ _).mpr
  refine ⟨[("vendor_name", PyValue.str "Atomwise"),
    ("website_url", PyValue.str "https://atomwise.com")], by decide,
    "vendor_name", by decide,
    PyValue.str "Atomwise", PyValue.str "atomwise", rfl, rfl, by decide, by decide, by decide⟩

/-- C6 counterexample: a `StructuredLogger.log` call echoes the console
line at trace position 1, BEFORE appending the event to the session file
(position 2) and the latest file (position 3), so the event is not
persisted before it is echoed. -/
theorem log_echoes_before_persisting :
    (logCall [] "2025-01-01T00:00:00" "validate_and_save" Option.none "START"
        "Validating Acme (company)" "INFO" Option.none).1 =
      [LogEffect.memAppend (buildEvent "2025-01-01T00:00:00" "validate_and_save"
          Option.none "START" "Validating Acme (company)" "INFO" Option.none),
       LogEffect.consolePrint "[INFO] START: Validating Acme (company)",
       LogEffect.appendLine LogFile.session (buildEvent "2025-01-01T00:00:00"
          "validate_and_save" Option.none "START" "Validating Acme (company)" "INFO" Option.none),
       LogEffect.appendLine LogFile.latest (buildEvent "2025-01-01T00:00:00"
          "validate_and_save" Option.none "START" "Validating Acme (company)" "INFO" Option.none)] := by
  decide

/-- C6 (amended): within each `log` call the console echo strictly
precedes every file append: any console-print position in the effect
trace is smaller than any append-to-file position. -/
theorem log_echo_precedes_append (printedStates : List String) (ts scriptName : String)
    (subdir : Option String) (state message level : String)
    (details : Option (List (String × PyValue))) :
    ∀ i j : Nat,
      (∃ l, (logCall printedStates ts scriptName subdir state message level details).1.get? i
          = some (LogEffect.consolePrint l)) →
      (∃ f e, (logCall printedStates ts scriptName subdir state message level details).1.get? j
          = some (LogEffect.appendLine f e)) →
      i < j := by
  intro i j h1 h2
  obtain ⟨l, hi⟩ := h1
  obtain ⟨f, e, hj⟩ := h2
  have hi1 : i = 1 := by
    match i, hi with
    | 1, _ => rfl
    | 0, hi => exact absurd hi (by simp [logCall])
    | 2, hi => exact absurd hi (by simp [logCall])
    | 3, hi => exact absurd hi (by simp [logCall])
    | n + 4, hi => exact absurd hi (by simp [logCall])
  have hj23 : j = 2 ∨ j = 3 := by
    match j, hj with
    | 2, _ => exact Or.inl rfl
    | 3, _ => exact Or.inr rfl
    | 0, hj => exact absurd hj (by simp [logCall])
    | 1, hj => exact absurd hj (by simp [logCall])
    | n + 4, hj => exact absurd hj (by simp [logCall])
  omega

/-- Witness for `log_echo_precedes_append` at a concrete call with the
echo at position 1 and the session-file append at position 2. -/
theorem log_echo_precedes_append_witness :
    (logCall [] "t0" "validate_and_save" Option.none "START" "msg" "INFO" Option.none).1.get? 2
      = some (LogEffect.appendLine LogFile.session
          (buildEvent "t0" "validate_and_save" Option.none "START" "msg" "INFO" Option.none)) ∧
    (1 : Nat) < 2 :=
  ⟨rfl, log_echo_precedes_append [] "t0" "validate_and_save" Option.none "START" "msg"
    "INFO" Option.none 1 2 ⟨_, rfl⟩ ⟨_, _, rfl⟩⟩

/-- C7 counterexample: two runs with distinct session timestamps write
their manifests to the SAME fixed path, and the later run overwrites the
earlier manifest instead of preserving it. -/
theorem manifest_path_ignores_session :
    manifestPath ⟨"validate_and_save", Option.none, "20250101_120000"⟩ =
      manifestPath ⟨"validate_and_save", Option.none, "20250102_120000"⟩ ∧
    ("20250101_120000" : String) ≠ "20250102_120000" ∧
    readFile (flushSummary (flushSummary ([] : FileStore Nat)
        ⟨"validate_and_save", Option.none, "20250101_120000"⟩ 1).2
        ⟨"validate_and_save", Option.none, "20250102_120000"⟩ 2).2
      (manifestPath ⟨"validate_and_save", Option.none, "20250101_120000"⟩) = some 2 := by
  exact ⟨rfl, by decide, by decide⟩

/-- C7 (amended): the run manifest lives at the fixed per-script path
`{script}_result.json` — independent of the session timestamp — and a
later run overwrites it; it is the per-session `.log.jsonl` log file
whose name is keyed by the session timestamp, so distinct sessions get
distinct session log files. -/
theorem manifest_fixed_session_keyed (lg1 lg2 : LoggerState) (fs : FileStore α) (p1 p2 : α)
    (hscript : lg1.scriptName = lg2.scriptName) :
    manifestPath lg1 = manifestPath lg2 ∧
    readFile (flushSummary (flushSummary fs lg1 p1).2 lg2 p2).2 (manifestPath lg1) = some p2 ∧
    (lg1.sessionId ≠ lg2.sessionId → sessionLogPath lg1 ≠ sessionLogPath lg2) := by
  have hm : manifestPath lg1 = manifestPath lg2 := by
    unfold manifestPath
    rw [hscript]
  refine ⟨hm, ?_, ?_⟩
  · simp [flushSummary, writeFile, readFile, hm]
  · intro hne heq
    apply hne
    unfold sessionLogPath at heq
    rw [hscript] at heq
    have hdata := congrArg String.data heq
    simp only [String.data_append, List.append_assoc] at hdata
    have h1 := List.append_cancel_left hdata
    have h2 := List.append_cancel_left h1
    have h3 := List.append_cancel_right h2
    exact String.ext h3

/-- Witness for `manifest_fixed_session_keyed` at two concrete sessions
of the same script. -/
theorem manifest_fixed_session_keyed_witness :
    manifestPath ⟨"validate_and_save", Option.none, "A"⟩ =
      manifestPath ⟨"validate_and_save", Option.none, "B"⟩ ∧
    sessionLogPath ⟨"validate_and_save", Option.none, "A"⟩ ≠
      sessionLogPath ⟨"validate_and_save", Option.none, "B"⟩ := by
  have h := manifest_fixed_session_keyed ⟨"validate_and_save", Option.none, "A"⟩
    ⟨"validate_and_save", Option.none, "B"⟩ ([] : FileStore Nat) 0 0 rfl
  exact ⟨h.1, h.2.2 (by decide)⟩

/-- C8 counterexample: calling `load_schema_config` when the schemas
directory does not exist CREATES that directory (via the
`mkdir(parents=True, exist_ok=True)` in `ModulePaths.schemas`), so the
loader is not free of filesystem side effects. -/
theorem load_schema_config_creates_dir :
    (load_schema_config ⟨false, fun _ => Option.none, fun _ => Option.none, true⟩
        "company").1.schemasDirExists = true ∧
    (⟨false, fun _ => Option.none, fun _ => Option.none, true⟩ : SchemaFs).schemasDirExists
      = false :=
  ⟨rfl, rfl⟩

/-- C8 (amended): the only filesystem effect of `load_schema_config` is
creating the schemas directory (and its parents) when absent; it never
touches the schema files themselves, and when the directory already
exists the filesystem is left completely unchanged — whether the load
returns a ruleset or raises. -/
theorem load_schema_config_fs_effect (fs : SchemaFs) (name : String) :
    (load_schema_config fs name).1 = schemasMkdir fs ∧
    (load_schema_config fs name).1.yaml = fs.yaml ∧
    (load_schema_config fs name).1.json = fs.json ∧
    (fs.schemasDirExists = true → (load_schema_config fs name).1 = fs) := by
  refine ⟨rfl, rfl, rfl, ?_⟩
  intro h
  cases fs
  simp_all [load_schema_config, schemasMkdir]

/-- Witness for `load_schema_config_fs_effect`: with the directory
already present the filesystem state is returned unchanged. -/
theorem load_schema_config_fs_effect_witness :
    (load_schema_config ⟨true, fun _ => Option.none, fun _ => Option.none, true⟩
        "company").1
      = (⟨true, fun _ => Option.none, fun _ => Option.none, true⟩ : SchemaFs) :=
  (load_schema_config_fs_effect
    ⟨true, fun _ => Option.none, fun _ => Option.none, true⟩ "company").2.2.2 rfl

/-- C9: with `status_forcelist` falsy — `None` or empty, as whenever the
schema declares no retry status codes — `build_retry_session` defaults
the forced-retry status list to `DEFAULT_ALLOWED_STATUS`, which is
exactly the `[200, 201, 301, 302]` the URL checks treat as success by
default. -/
theorem retry_forcelist_defaults_to_allowed (sf : Option (List Int))
    (hsf : sf = Option.none ∨ sf = some [])
    (maxRetries : Int) (methods : List String) :
    (build_retry_session maxRetries sf methods).statusForcelist = [200, 201, 301, 302] ∧
    DEFAULT_ALLOWED_STATUS = [200, 201, 301, 302] ∧
    schemaAllowedStatus {} = [200, 201, 301, 302] ∧
    (∀ rf us : Option (List Int), (rf = Option.none ∨ rf = some []) →
      (us = Option.none ∨ us = some []) →
      (build_retry_session maxRetries (validatorStatusForcelist rf us) methods).statusForcelist
        = [200, 201, 301, 302]) := by
  refine ⟨?_, rfl, rfl, ?_⟩
  · rcases hsf with h | h <;> subst h <;> rfl
  · intro rf us hrf hus
    rcases hrf with h | h <;> rcases hus with h2 | h2 <;> subst h <;> subst h2 <;> rfl

/-- Witness for `retry_forcelist_defaults_to_allowed` at the call
`Validator.__init__` makes for a schema with no retry section. -/
theorem retry_forcelist_defaults_to_allowed_witness :
    (build_retry_session 3 Option.none ["GET", "HEAD"]).statusForcelist
      = [200, 201, 301, 302] :=
  (retry_forcelist_defaults_to_allowed Option.none (Or.inl rfl) 3 ["GET", "HEAD"]).1

end Marketing
